import Mathlib

/-!
# Address configuration webhook resource

A shallow embedding of
`twilio/internal/services/conversations/resource_conversations_address_configuration_webhook.go`:
the static schema, the importer and the create / read / update / delete
functions of the resource, with the properties the specification states about
them.

Go strings are modelled by `String` (a list of characters), the resource data
by its identifier and its attribute store, and the remote API by functions over
an explicit world state.
-/

namespace AddressConfigurationWebhook

/-! ## Regular expressions (the fragment of Go's `regexp` the importer uses) -/

/-- Syntax tree of a compiled pattern. `dot` is the pattern `.`, which without
the `s` flag matches every character but the line feed; `star` is the greedy
`*`; `group i r` is the capturing group numbered `i`; `empty` matches the empty
text. -/
inductive Regex where
  | empty
  | lit (c : Char)
  | dot
  | star (r : Regex)
  | cat (r₁ r₂ : Regex)
  | group (i : Nat) (r : Regex)
  deriving DecidableEq, Repr

/-- Captures recorded so far: group number and captured text, latest first. -/
abbrev Caps := List (Nat × List Char)

/-- One way the matcher can be after a sub-pattern: the input left and the
captures. -/
abbrev Thread := List Char × Caps

/-- Greedy iteration of `step`: every way to apply `step` once more (with
progress) is preferred to stopping. Each round consumes a character, so a fuel
of the input's length is never exhausted. -/
def starLoop (step : List Char → Caps → List Thread) : Nat → List Char → Caps → List Thread
  | 0, s, caps => [(s, caps)]
  | n + 1, s, caps =>
    (((step s caps).filter (fun t => decide (t.1.length < s.length))).flatMap
      (fun t => starLoop step n t.1 t.2)) ++ [(s, caps)]

/-- All the ways `r` matches a prefix of the input, in the order a backtracking
search tries them (leftmost-first, as Go's `regexp` prefers). -/
def Regex.run : Regex → List Char → Caps → List Thread
  | .empty, s, caps => [(s, caps)]
  | .lit c, s, caps =>
    match s with
    | x :: xs => if x = c then [(xs, caps)] else []
    | [] => []
  | .dot, s, caps =>
    match s with
    | x :: xs => if x ≠ '\n' then [(xs, caps)] else []
    | [] => []
  | .star r, s, caps => starLoop (fun s' caps' => r.run s' caps') s.length s caps
  | .cat r₁ r₂, s, caps => (r₁.run s caps).flatMap (fun t => r₂.run t.1 t.2)
  | .group i r, s, caps =>
    (r.run s caps).map (fun t => (t.1, (i, s.take (s.length - t.1.length)) :: t.2))

/-- Number of capturing groups (`NumSubexp`). -/
def Regex.numSubexp : Regex → Nat
  | .empty => 0
  | .lit _ => 0
  | .dot => 0
  | .star r => r.numSubexp
  | .cat r₁ r₂ => r₁.numSubexp + r₂.numSubexp
  | .group _ r => r.numSubexp + 1

/-- Text of group `i`, the empty text when the group took no part. -/
def capture (caps : Caps) (i : Nat) : List Char :=
  match caps.find? (fun p => p.1 == i) with
  | some p => p.2
  | none => []

/-- The preferred match of `re` starting exactly at the head of `s`: the whole
match followed by the text of each group. -/
def matchAt (re : Regex) (s : List Char) : Option (List (List Char)) :=
  match (re.run s []).head? with
  | some t =>
    some (s.take (s.length - t.1.length) ::
      (List.range re.numSubexp).map (fun i => capture t.2 (i + 1)))
  | none => none

/-- Leftmost match: the start positions are tried from left to right, the end
of the input included. -/
def findFrom (re : Regex) : List Char → Option (List (List Char))
  | [] => matchAt re []
  | c :: cs =>
    match matchAt re (c :: cs) with
    | some m => some m
    | none => findFrom re cs

/-- The method `(*Regexp).FindStringSubmatch`: the leftmost match and its
groups, or `nil` (the empty slice) when there is none. -/
def Regex.FindStringSubmatch (re : Regex) (s : String) : List String :=
  match findFrom re s.data with
  | some m => m.map String.mk
  | none => []

/-- A run of literal characters followed by `k`. -/
def Regex.lits : List Char → Regex → Regex
  | [], k => k
  | c :: cs, k => .cat (.lit c) (Regex.lits cs k)

/-- Concatenation of a sequence of sub-patterns. -/
def Regex.ofSeq : List Regex → Regex
  | [] => .empty
  | [r] => r
  | r :: rs => .cat r (Regex.ofSeq rs)

/-- A group being parsed: its number (0 at top level) and the sub-patterns read
so far, last first. -/
structure Frame where
  index : Nat
  atoms : List Regex

/-- Characters with a meaning in the pattern syntax that lies outside the
fragment modelled here. -/
def unsupported (c : Char) : Bool :=
  c = '\\' || c = '[' || c = ']' || c = '+' || c = '?' || c = '|' || c = '^' || c = '$' ||
    c = Char.ofNat 123 || c = Char.ofNat 125

/-- Reads a pattern left to right. `next` numbers the groups by their opening
parenthesis, `cur` is the innermost open group and `stack` the groups around
it. `none` is a syntax error or a pattern outside the fragment. -/
def parseLoop : List Char → Nat → Frame → List Frame → Option Regex
  | [], _, cur, [] => some (Regex.ofSeq cur.atoms.reverse)
  | [], _, _, _ :: _ => none
  | c :: cs, next, cur, stack =>
    if c = '(' then parseLoop cs (next + 1) ⟨next, []⟩ (cur :: stack)
    else if c = ')' then
      match stack with
      | [] => none
      | parent :: outer =>
        parseLoop cs next
          ⟨parent.index, .group cur.index (Regex.ofSeq cur.atoms.reverse) :: parent.atoms⟩ outer
    else if c = '*' then
      match cur.atoms with
      | [] => none
      | .star _ :: _ => none
      | a :: as => parseLoop cs next ⟨cur.index, .star a :: as⟩ stack
    else if c = '.' then parseLoop cs next ⟨cur.index, .dot :: cur.atoms⟩ stack
    else if unsupported c then none
    else parseLoop cs next ⟨cur.index, .lit c :: cur.atoms⟩ stack

/-- The function `regexp.Compile` on the fragment: the syntax tree of a pattern. -/
def Regex.Compile (str : String) : Option Regex :=
  parseLoop str.data 1 ⟨0, []⟩ []

/-- The function `regexp.MustCompile`, which panics when the pattern does not compile. The
only pattern this file compiles is a constant that does, so the panic is not
modelled and stands as the empty pattern. -/
def Regex.MustCompile (str : String) : Regex :=
  (Regex.Compile str).getD .empty

/-! ## Plugin SDK: values, schema, validators -/

/-- Value types a schema attribute can have (those this resource uses). -/
inductive ValueType where
  | TypeBool
  | TypeString
  | TypeList
  deriving DecidableEq, Repr

/-- A dynamically typed value (`interface{}`) as handed to `d.Set` or kept in
a schema default; `null` is `nil`, also what a nil pointer becomes. -/
inductive Value where
  | null
  | bool (b : Bool)
  | str (s : String)
  | list (xs : List String)
  deriving DecidableEq, Repr

/-- The validation functions the schema refers to. -/
inductive Validator where
  | StringInSlice (valid : List String) (ignoreCase : Bool)
  | ConversationServiceSidValidation
  | IsURLWithHTTPorHTTPS
  deriving DecidableEq, Repr

/-- Library predicates whose code is outside this file: `strings.EqualFold`,
the check behind `utils.ConversationServiceSidValidation()` and
`validation.IsURLWithHTTPorHTTPS`. -/
structure Validation where
  EqualFold : String → String → Bool
  ConversationServiceSid : Value → Bool
  IsURLWithHTTPorHTTPS : Value → Bool

/-- Whether a validator reports no error on a value. `StringInSlice` wants a
string equal to one of `valid`, or equal up to case when `ignoreCase` is set. -/
def Validator.accepts (x : Validation) : Validator → Value → Bool
  | .StringInSlice valid ignoreCase, .str v =>
    valid.any (fun str => v == str || (ignoreCase && x.EqualFold v str))
  | .StringInSlice _ _, _ => false
  | .ConversationServiceSidValidation, v => x.ConversationServiceSid v
  | .IsURLWithHTTPorHTTPS, v => x.IsURLWithHTTPorHTTPS v

/-- Schema of a list's elements. -/
structure ElemSchema where
  Type_ : ValueType
  ValidateFunc : Option Validator := none
  deriving DecidableEq, Repr

/-- One attribute's `schema.Schema`; a field left out in the source has its
zero value. -/
structure Schema where
  Type_ : ValueType
  Required : Bool := false
  Optional : Bool := false
  Computed : Bool := false
  ForceNew : Bool := false
  Default : Option Value := none
  ValidateFunc : Option Validator := none
  Elem : Option ElemSchema := none
  deriving DecidableEq, Repr

/-- The `Schema` map of the resource, in source order. -/
def resourceSchema : List (String × Schema) :=
  [ ("sid", { Type_ := .TypeString, Computed := true }),
    ("account_sid", { Type_ := .TypeString, Computed := true }),
    ("address", { Type_ := .TypeString, Required := true, ForceNew := true }),
    ("service_sid",
      { Type_ := .TypeString,
        Optional := true,
        ValidateFunc := some .ConversationServiceSidValidation }),
    ("friendly_name", { Type_ := .TypeString, Optional := true }),
    ("integration_type", { Type_ := .TypeString, Computed := true }),
    ("enabled", { Type_ := .TypeBool, Optional := true, Default := some (.bool true) }),
    ("type",
      { Type_ := .TypeString,
        Required := true,
        ValidateFunc := some (.StringInSlice ["sms", "whatsapp"] false),
        ForceNew := true }),
    ("webhook_filters",
      { Type_ := .TypeList,
        Required := true,
        Elem := some
          { Type_ := .TypeString,
            ValidateFunc := some (.StringInSlice
              [ "onMessageAdded", "onMessageUpdated", "onMessageRemoved",
                "onConversationUpdated", "onConversationStateUpdated",
                "onConversationRemoved", "onParticipantAdded", "onParticipantUpdated",
                "onParticipantRemoved", "onDeliveryUpdated" ] false) } }),
    ("webhook_method",
      { Type_ := .TypeString,
        Optional := true,
        Default := some (.str "POST"),
        ValidateFunc := some (.StringInSlice ["GET", "POST"] false) }),
    ("webhook_url",
      { Type_ := .TypeString,
        Required := true,
        ValidateFunc := some .IsURLWithHTTPorHTTPS }),
    ("date_created", { Type_ := .TypeString, Computed := true }),
    ("date_updated", { Type_ := .TypeString, Computed := true }),
    ("url", { Type_ := .TypeString, Computed := true }) ]

/-- Map access `Schema[key]`. -/
def schemaLookup (key : String) : Option Schema :=
  (resourceSchema.find? (fun e => e.1 == key)).map (fun e => e.2)

/-! ## Plugin SDK: resource data -/

/-- The resource data `d` as this file uses it: the identifier read by `Id` and
written by `SetId`, and the attribute values read by `Get` and written by
`Set` (`none`: never written and not in the prior state). -/
structure ResourceData where
  id : String
  attrs : String → Option Value

/-- Whether `Set` can store the value under an attribute of the type: a value
of that type, or `nil` (which clears the attribute). -/
def Value.fits : ValueType → Value → Bool
  | _, .null => true
  | .TypeBool, .bool _ => true
  | .TypeString, .str _ => true
  | .TypeList, .list _ => true
  | _, _ => false

/-- Zero value of a type, what `Get` gives for an attribute without a value. -/
def ValueType.zero : ValueType → Value
  | .TypeBool => .bool false
  | .TypeString => .str ""
  | .TypeList => .list []

namespace ResourceData

/-- The method `d.Id()`. -/
def Id (d : ResourceData) : String := d.id

/-- The method `d.SetId(v)`. -/
def SetId (d : ResourceData) (v : String) : ResourceData := { d with id := v }

/-- The method `d.Set(key, value)`. It fails, writing nothing, when the key is not in
the schema or the value does not fit the attribute's type; every caller in this
file drops the returned error, so only the effect on `d` is kept. -/
def Set (d : ResourceData) (key : String) (value : Value) : ResourceData :=
  match schemaLookup key with
  | some s =>
    if value.fits s.Type_ then
      { d with attrs := fun k => if k = key then some value else d.attrs k }
    else d
  | none => d

/-- The method `d.Get(key)`: the stored value, the zero value of the attribute's type when
there is none, `nil` for an undeclared key. -/
def Get (d : ResourceData) (key : String) : Value :=
  match schemaLookup key with
  | some s =>
    match d.attrs key with
    | some .null => s.Type_.zero
    | some v => v
    | none => s.Type_.zero
  | none => .null

end ResourceData

/-- The type assertion `.(string)` on a value read from a `TypeString`
attribute, where it cannot fail; any other value gives the empty string. -/
def Value.asString : Value → String
  | .str s => s
  | _ => ""

/-! ## The importer -/

/-- The characters `.` accepts: all but the line feed. -/
def notLF (c : Char) : Bool := decide (c ≠ '\n')

/-- The text of `s` before its first line feed, all of `s` when it has none. -/
def upToLineFeed (s : String) : String := String.mk (s.data.takeWhile notLF)

/-- The literal text every importable ID must contain. -/
def importPrefix : String := "/Configuration/Addresses/"

/-- The pattern string of the importer. -/
def format : String := "/Configuration/Addresses/(.*)"

/-- The compiled pattern, `regexp.MustCompile(format)`. -/
def regex : Regex := Regex.MustCompile format

/-- The importer's `State` function. The first component is `d` after the call
(it is updated in place), the second the returned pair: the error text, or the
returned list, whose only element is `d` itself. -/
def Importer.State (d : ResourceData) : ResourceData × Except String (List ResourceData) :=
  match regex.FindStringSubmatch d.Id with
  | [_, m1] =>
    let d1 := d.Set "sid" (.str m1)
    let d2 := d1.SetId m1
    (d2, .ok [d2])
  | _ =>
    (d, .error ("The imported ID (" ++ d.Id ++ ") does not match the format (" ++ format ++ ")"))

/-! ## Time stamps -/

/-- A time as `Format` sees it: calendar date, clock time and the zone offset
in seconds east of UTC. -/
structure Time where
  year : Nat
  month : Nat
  day : Nat
  hour : Nat
  minute : Nat
  second : Nat
  offset : Int
  deriving DecidableEq, Repr

/-- Decimal digits of `x`, zero-padded on the left to `width`. -/
def appendInt (x width : Nat) : String :=
  String.mk (List.replicate (width - (Nat.repr x).length) '0') ++ Nat.repr x

/-- The zone part `Z07:00`: `Z` for UTC, otherwise sign, hours and minutes. -/
def formatZone (offset : Int) : String :=
  if offset = 0 then "Z"
  else
    let zone := Int.tdiv offset 60
    (if zone < 0 then "-" else "+") ++
      appendInt (zone.natAbs / 60) 2 ++ ":" ++ appendInt (zone.natAbs % 60) 2

/-- The call `t.Format(time.RFC3339)`, layout `2006-01-02T15:04:05Z07:00`. -/
def Time.FormatRFC3339 (t : Time) : String :=
  appendInt t.year 4 ++ "-" ++ appendInt t.month 2 ++ "-" ++ appendInt t.day 2 ++ "T" ++
    appendInt t.hour 2 ++ ":" ++ appendInt t.minute 2 ++ ":" ++ appendInt t.second 2 ++
    formatZone t.offset

/-! ## SDK requests and responses

The request and response types are declared in the SDK module. They are given
here with the fields this file reads or sets; a pointer is an `Option`. -/

/-- The `AutoCreation` block of `address.FetchAddressResponse`. -/
structure FetchAddressResponseAutoCreation where
  ConversationServiceSid : Option String
  Enabled : Bool
  Type_ : String
  WebhookFilters : Option (List String)
  WebhookMethod : Option String
  WebhookUrl : Option String
  deriving DecidableEq, Repr

/-- The response `address.FetchAddressResponse`. -/
structure FetchAddressResponse where
  AccountSid : String
  Address : String
  AutoCreation : FetchAddressResponseAutoCreation
  DateCreated : Time
  DateUpdated : Option Time
  FriendlyName : Option String
  Sid : String
  Type_ : String
  URL : String
  deriving DecidableEq, Repr

/-- The request block `addresses.CreateAutoCreationInput`. -/
structure CreateAutoCreationInput where
  ConversationServiceSid : Option String
  Enabled : Option Bool
  Type_ : Option String
  WebhookFilters : Option (List String)
  WebhookMethod : Option String
  WebhookUrl : Option String
  deriving DecidableEq, Repr

/-- The request `addresses.CreateAddressInput`. -/
structure CreateAddressInput where
  Address : String
  AutoCreation : Option CreateAutoCreationInput
  FriendlyName : Option String
  Type_ : String
  deriving DecidableEq, Repr

/-- The request block `address.UpdateAutoCreationInput`. -/
structure UpdateAutoCreationInput where
  ConversationServiceSid : Option String
  Enabled : Option Bool
  Type_ : Option String
  WebhookFilters : Option (List String)
  WebhookMethod : Option String
  WebhookUrl : Option String
  deriving DecidableEq, Repr

/-- The request `address.UpdateAddressInput`. -/
structure UpdateAddressInput where
  AutoCreation : Option UpdateAutoCreationInput
  FriendlyName : Option String
  deriving DecidableEq, Repr

/-- Result of the create call; only `Sid` is read. -/
structure CreateAddressResponse where
  Sid : String
  deriving DecidableEq, Repr

/-- Result of the update call; only `Sid` is read. -/
structure UpdateAddressResponse where
  Sid : String
  deriving DecidableEq, Repr

/-- The conversations client reached through `meta`. The remote service is a
state `W` that every call may read and change; `E` is the type of the errors
the calls return and `Error` their `Error()` method. -/
structure Client (W E : Type) where
  CreateWithContext : W → CreateAddressInput → Except E CreateAddressResponse × W
  FetchWithContext : W → String → Except E FetchAddressResponse × W
  UpdateWithContext : W → String → UpdateAddressInput → Except E UpdateAddressResponse × W
  DeleteWithContext : W → String → Option E × W
  Error : E → String

/-- The helpers of the `utils` package this file calls. Their code is outside
this file; they read `d` and return a value. -/
structure Utils (E : Type) where
  OptionalString : ResourceData → String → Option String
  OptionalStringWithEmptyStringOnChange : ResourceData → String → Option String
  OptionalBool : ResourceData → String → Option Bool
  OptionalStringSlice : ResourceData → String → Option (List String)
  IsNotFoundError : E → Bool

/-- An SDK call, as issued. -/
inductive Call where
  | Create (input : CreateAddressInput)
  | Fetch (sid : String)
  | Update (sid : String) (input : UpdateAddressInput)
  | Delete (sid : String)
  deriving DecidableEq, Repr

/-! ## Diagnostics -/

/-- Severity of a diagnostic. -/
inductive Severity where
  | Error
  | Warning
  deriving DecidableEq, Repr

/-- A `diag.Diagnostic`. -/
structure Diagnostic where
  Severity : Severity
  Summary : String
  Detail : String := ""
  deriving DecidableEq, Repr

/-- The type `diag.Diagnostics`; `nil` is the empty list. -/
abbrev Diagnostics := List Diagnostic

/-- The function `diag.Errorf`, applied to the formatted text: one diagnostic of
severity error with that summary. -/
def diagErrorf (summary : String) : Diagnostics :=
  [{ Severity := .Error, Summary := summary }]

/-! ## Create, read, update, delete -/

/-- What an operation leaves behind: the returned diagnostics, `d` after the
call, the remote state and the SDK calls issued, in order. -/
structure Outcome (W : Type) where
  diags : Diagnostics
  d : ResourceData
  world : W
  calls : List Call

/-- A `*string` passed to `d.Set`: dereferenced, `nil` when the pointer is. -/
def Value.ofString? : Option String → Value
  | some s => .str s
  | none => .null

/-- A `*[]string` passed to `d.Set`. -/
def Value.ofStrings? : Option (List String) → Value
  | some xs => .list xs
  | none => .null

/-- The `d.Set` calls of the read function on a response, in source order. -/
def readWrites (r : FetchAddressResponse) : List (String × Value) :=
  [ ("sid", .str r.Sid),
    ("account_sid", .str r.AccountSid),
    ("address", .str r.Address),
    ("service_sid", .ofString? r.AutoCreation.ConversationServiceSid),
    ("friendly_name", .ofString? r.FriendlyName),
    ("enabled", .bool r.AutoCreation.Enabled),
    ("integration_type", .str r.AutoCreation.Type_),
    ("type", .str r.Type_),
    ("webhook_filters", .ofStrings? r.AutoCreation.WebhookFilters),
    ("webhook_method", .ofString? r.AutoCreation.WebhookMethod),
    ("webhook_url", .ofString? r.AutoCreation.WebhookUrl),
    ("date_created", .str r.DateCreated.FormatRFC3339) ] ++
  (match r.DateUpdated with
    | some t => [("date_updated", .str t.FormatRFC3339)]
    | none => []) ++
  [ ("url", .str r.URL) ]

/-- Runs a sequence of `d.Set` calls. -/
def setAll (d : ResourceData) (ws : List (String × Value)) : ResourceData :=
  ws.foldl (fun d kv => d.Set kv.1 kv.2) d

section Operations

variable {W E : Type}

/-- The read function. -/
def resourceConversationsAddressConfigurationWebhookRead (c : Client W E) (u : Utils E)
    (w : W) (d : ResourceData) : Outcome W :=
  match c.FetchWithContext w d.Id with
  | (.error err, w1) =>
    if u.IsNotFoundError err then
      ⟨[], d.SetId "", w1, [.Fetch d.Id]⟩
    else
      ⟨diagErrorf ("Failed to read address configuration webhook: " ++ c.Error err),
        d, w1, [.Fetch d.Id]⟩
  | (.ok getResponse, w1) =>
    ⟨[], setAll d (readWrites getResponse), w1, [.Fetch d.Id]⟩

/-- The request built by the create function. -/
def createInput (u : Utils E) (d : ResourceData) : CreateAddressInput :=
  let webhookType := "webhook"
  { Address := (d.Get "address").asString,
    AutoCreation := some
      { ConversationServiceSid := u.OptionalStringWithEmptyStringOnChange d "service_sid",
        Enabled := u.OptionalBool d "enabled",
        Type_ := some webhookType,
        WebhookFilters := u.OptionalStringSlice d "webhook_filters",
        WebhookMethod := u.OptionalString d "webhook_method",
        WebhookUrl := u.OptionalString d "webhook_url" },
    FriendlyName := u.OptionalStringWithEmptyStringOnChange d "friendly_name",
    Type_ := (d.Get "type").asString }

/-- The create function. -/
def resourceConversationsAddressConfigurationWebhookCreate (c : Client W E) (u : Utils E)
    (w : W) (d : ResourceData) : Outcome W :=
  match c.CreateWithContext w (createInput u d) with
  | (.error err, w1) =>
    ⟨diagErrorf ("Failed to create address configuration webhook: " ++ c.Error err),
      d, w1, [.Create (createInput u d)]⟩
  | (.ok createResult, w1) =>
    let o := resourceConversationsAddressConfigurationWebhookRead c u w1 (d.SetId createResult.Sid)
    { o with calls := .Create (createInput u d) :: o.calls }

/-- The request built by the update function. -/
def updateInput (u : Utils E) (d : ResourceData) : UpdateAddressInput :=
  let webhookType := "webhook"
  { AutoCreation := some
      { ConversationServiceSid := u.OptionalStringWithEmptyStringOnChange d "service_sid",
        Enabled := u.OptionalBool d "enabled",
        Type_ := some webhookType,
        WebhookFilters := u.OptionalStringSlice d "webhook_filters",
        WebhookMethod := u.OptionalString d "webhook_method",
        WebhookUrl := u.OptionalString d "webhook_url" },
    FriendlyName := u.OptionalStringWithEmptyStringOnChange d "friendly_name" }

/-- The update function. -/
def resourceConversationsAddressConfigurationWebhookUpdate (c : Client W E) (u : Utils E)
    (w : W) (d : ResourceData) : Outcome W :=
  match c.UpdateWithContext w d.Id (updateInput u d) with
  | (.error err, w1) =>
    ⟨diagErrorf ("Failed to update address configuration webhook: " ++ c.Error err),
      d, w1, [.Update d.Id (updateInput u d)]⟩
  | (.ok updateResp, w1) =>
    let o := resourceConversationsAddressConfigurationWebhookRead c u w1 (d.SetId updateResp.Sid)
    { o with calls := .Update d.Id (updateInput u d) :: o.calls }

/-- The delete function. -/
def resourceConversationsAddressConfigurationWebhookDelete (c : Client W E)
    (w : W) (d : ResourceData) : Outcome W :=
  match c.DeleteWithContext w d.Id with
  | (some err, w1) =>
    ⟨diagErrorf ("Failed to delete address configuration webhook: " ++ c.Error err),
      d, w1, [.Delete d.Id]⟩
  | (none, w1) => ⟨[], d.SetId "", w1, [.Delete d.Id]⟩

end Operations

/-! ## Sample values for the examples -/

/-- A fetch response with every optional field present. -/
def sampleResponse : FetchAddressResponse :=
  { AccountSid := "AC1",
    Address := "+15550100",
    AutoCreation :=
      { ConversationServiceSid := some "IS1",
        Enabled := true,
        Type_ := "webhook",
        WebhookFilters := some ["onMessageAdded", "onDeliveryUpdated"],
        WebhookMethod := some "POST",
        WebhookUrl := some "https://example.com/hook" },
    DateCreated := ⟨2021, 3, 4, 5, 6, 7, 0⟩,
    DateUpdated := some ⟨2021, 3, 5, 8, 9, 10, 0⟩,
    FriendlyName := some "support",
    Sid := "IG1",
    Type_ := "sms",
    URL := "https://conversations.example.com/v1/Configuration/Addresses/IG1" }

/-- A client over a remote service that holds the one address `IG1`; errors
are their own text. -/
def sampleClient : Client Unit String :=
  { CreateWithContext := fun w _ => (.ok ⟨"IG1"⟩, w),
    FetchWithContext := fun w sid =>
      if sid = "IG1" then (.ok sampleResponse, w) else (.error "not found", w),
    UpdateWithContext := fun w sid _ =>
      if sid = "IG1" then (.ok ⟨"IG1"⟩, w) else (.error "not found", w),
    DeleteWithContext := fun w sid => if sid = "IG1" then (none, w) else (some "not found", w),
    Error := fun e => e }

/-- A client whose every call fails with the error `boom`. -/
def failingClient : Client Unit String :=
  { CreateWithContext := fun w _ => (.error "boom", w),
    FetchWithContext := fun w _ => (.error "boom", w),
    UpdateWithContext := fun w _ _ => (.error "boom", w),
    DeleteWithContext := fun w _ => (some "boom", w),
    Error := fun e => e }

/-- Helpers that read the stored value of the attribute; the error `not found`
is the one classified as not-found. -/
def sampleUtils : Utils String :=
  { OptionalString := fun d k =>
      match d.attrs k with
      | some (.str v) => some v
      | _ => none,
    OptionalStringWithEmptyStringOnChange := fun d k =>
      match d.attrs k with
      | some (.str v) => some v
      | _ => none,
    OptionalBool := fun d k =>
      match d.attrs k with
      | some (.bool v) => some v
      | _ => none,
    OptionalStringSlice := fun d k =>
      match d.attrs k with
      | some (.list v) => some v
      | _ => none,
    IsNotFoundError := fun e => e == "not found" }

/-- Resource data with the ID `IG1` and a stored `date_updated`. -/
def sampleData : ResourceData :=
  { id := "IG1",
    attrs := fun k => if k = "date_updated" then some (.str "2020-01-01T00:00:00Z") else none }

/-- Resource data whose ID the sample service does not know. -/
def goneData : ResourceData :=
  { id := "IG9",
    attrs := fun k => if k = "address" then some (.str "+15550100") else none }

/-- A fetch response with every optional field absent. -/
def bareResponse : FetchAddressResponse :=
  { AccountSid := "AC1",
    Address := "+15550100",
    AutoCreation :=
      { ConversationServiceSid := none,
        Enabled := false,
        Type_ := "webhook",
        WebhookFilters := none,
        WebhookMethod := none,
        WebhookUrl := none },
    DateCreated := ⟨2021, 3, 4, 5, 6, 7, 0⟩,
    DateUpdated := none,
    FriendlyName := none,
    Sid := "IG1",
    Type_ := "sms",
    URL := "https://conversations.example.com/v1/Configuration/Addresses/IG1" }

/-- A client over a remote service that holds the address `IG1` with no
optional field. -/
def bareClient : Client Unit String :=
  { sampleClient with FetchWithContext := fun w _ => (.ok bareResponse, w) }

/-- A client whose remote state is the list of the calls it has received, each
with its arguments; every call succeeds. -/
def recordingClient (E : Type) : Client (List Call) E :=
  { CreateWithContext := fun w i => (.ok ⟨"IG1"⟩, w ++ [.Create i]),
    FetchWithContext := fun w sid => (.ok sampleResponse, w ++ [.Fetch sid]),
    UpdateWithContext := fun w sid i => (.ok ⟨sid⟩, w ++ [.Update sid i]),
    DeleteWithContext := fun w sid => (none, w ++ [.Delete sid]),
    Error := fun _ => "" }

/-- A configured resource: every argument attribute has a value, and a stored
`integration_type` that differs from "webhook". -/
def configuredData : ResourceData :=
  { id := "IG1",
    attrs := fun k =>
      if k = "address" then some (.str "+15550100")
      else if k = "type" then some (.str "sms")
      else if k = "service_sid" then some (.str "IS1")
      else if k = "friendly_name" then some (.str "support")
      else if k = "enabled" then some (.bool false)
      else if k = "webhook_filters" then some (.list ["onMessageAdded"])
      else if k = "webhook_method" then some (.str "GET")
      else if k = "webhook_url" then some (.str "https://example.com/hook")
      else if k = "integration_type" then some (.str "studio")
      else none }

/-! # Properties -/

/-! ## The matcher on the import pattern -/

theorem run_lits_append (p : List Char) (k : Regex) (rest : List Char) (caps : Caps) :
    (Regex.lits p k).run (p ++ rest) caps = k.run rest caps := by
  induction p with
  | nil => rfl
  | cons c cs ih => simp [Regex.lits, Regex.run, ih]

theorem run_lits_miss (p : List Char) (k : Regex) (s : List Char) (caps : Caps)
    (h : ¬ p <+: s) : (Regex.lits p k).run s caps = [] := by
  induction p generalizing s with
  | nil => exact absurd (List.nil_prefix) h
  | cons c cs ih =>
    cases s with
    | nil => simp [Regex.lits, Regex.run]
    | cons x xs =>
      by_cases hx : x = c
      · subst hx
        have h2 : ¬ cs <+: xs := fun hp => h ((List.prefix_cons_inj x).mpr hp)
        simp [Regex.lits, Regex.run, ih xs h2]
      · simp [Regex.lits, Regex.run, hx]

theorem numSubexp_lits (p : List Char) (k : Regex) :
    (Regex.lits p k).numSubexp = k.numSubexp := by
  induction p with
  | nil => rfl
  | cons c cs ih => simp [Regex.lits, Regex.numSubexp, ih]

theorem dropWhile_of_takeWhile_nil (s : List Char) (h : (s.takeWhile notLF).length = 0) :
    s.dropWhile notLF = s := by
  cases s with
  | nil => rfl
  | cons x xs =>
    by_cases hx : notLF x = true
    · simp [List.takeWhile, hx] at h
    · simp [List.dropWhile, hx]

theorem dot_run_nil (caps : Caps) : Regex.dot.run [] caps = [] := rfl

theorem dot_run_cons (x : Char) (xs : List Char) (caps : Caps) :
    Regex.dot.run (x :: xs) caps = if x ≠ '\n' then [(xs, caps)] else [] := rfl

theorem starLoop_dot_head (n : Nat) (s : List Char) (caps : Caps)
    (h : (s.takeWhile notLF).length ≤ n) :
    (starLoop (fun s1 c1 => Regex.dot.run s1 c1) n s caps).head? =
      some (s.dropWhile notLF, caps) := by
  induction n generalizing s with
  | zero =>
    have h0 : (s.takeWhile notLF).length = 0 := Nat.le_zero.mp h
    simp [starLoop, dropWhile_of_takeWhile_nil s h0]
  | succ n ih =>
    cases s with
    | nil => simp [starLoop, dot_run_nil]
    | cons x xs =>
      by_cases hx : x = '\n'
      · subst hx
        simp [starLoop, dot_run_cons, notLF]
      · have hx2 : notLF x = true := by simp [notLF, hx]
        have hlen : (xs.takeWhile notLF).length ≤ n := by
          simp [List.takeWhile, hx2] at h
          exact h
        have h3 := ih xs hlen
        simp only [starLoop, dot_run_cons, if_pos hx]
        simp [List.dropWhile, hx2, List.head?_append, h3]

theorem take_length_sub_dropWhile (s : List Char) :
    s.take (s.length - (s.dropWhile notLF).length) = s.takeWhile notLF := by
  have h := List.takeWhile_append_dropWhile notLF s
  have hl := congrArg List.length h
  simp only [List.length_append] at hl
  have h1 : s.length - (s.dropWhile notLF).length = (s.takeWhile notLF).length := by omega
  have h2 := List.take_left (s.takeWhile notLF) (s.dropWhile notLF)
  rw [h] at h2
  rw [h1, h2]

/-- The pattern compiles to the literal text followed by group 1 around `.*`. -/
theorem regex_eq :
    regex = Regex.lits importPrefix.data (.group 1 (.star .dot)) := by
  decide

theorem run_star (r : Regex) (s : List Char) (caps : Caps) :
    (Regex.star r).run s caps = starLoop (fun s1 c1 => r.run s1 c1) s.length s caps := rfl

theorem run_group (i : Nat) (r : Regex) (s : List Char) (caps : Caps) :
    (Regex.group i r).run s caps =
      (r.run s caps).map (fun t => (t.1, (i, s.take (s.length - t.1.length)) :: t.2)) := rfl

theorem findFrom_cons (re : Regex) (c : Char) (cs : List Char) :
    findFrom re (c :: cs) =
      match matchAt re (c :: cs) with
      | some m => some m
      | none => findFrom re cs := rfl

theorem run_group_star_dot_head (s : List Char) (caps : Caps) :
    ((Regex.group 1 (.star .dot)).run s caps).head? =
      some (s.dropWhile notLF, (1, s.takeWhile notLF) :: caps) := by
  have h := starLoop_dot_head s.length s caps (List.takeWhile_sublist notLF).length_le
  rw [run_group, run_star, List.head?_map, h]
  simp only [Option.map_some', take_length_sub_dropWhile]

theorem matchAt_hit (rest : List Char) :
    matchAt regex (importPrefix.data ++ rest) =
      some [importPrefix.data ++ rest.takeWhile notLF, rest.takeWhile notLF] := by
  have hn : regex.numSubexp = 1 := by
    rw [regex_eq, numSubexp_lits]; rfl
  have hrun : (regex.run (importPrefix.data ++ rest) []).head? =
      some (rest.dropWhile notLF, [(1, rest.takeWhile notLF)]) := by
    rw [regex_eq, run_lits_append]
    exact run_group_star_dot_head rest []
  have h := List.takeWhile_append_dropWhile notLF rest
  have hl := congrArg List.length h
  simp only [List.length_append] at hl
  have h1 : (importPrefix.data ++ rest).length - (rest.dropWhile notLF).length =
      (importPrefix.data ++ rest.takeWhile notLF).length := by
    simp only [List.length_append]; omega
  have h2 := List.take_left (importPrefix.data ++ rest.takeWhile notLF) (rest.dropWhile notLF)
  rw [List.append_assoc, h] at h2
  simp only [matchAt, hrun, hn, h1, h2]
  simp [capture, List.range_succ]

theorem matchAt_miss (s : List Char) (h : ¬ importPrefix.data <+: s) :
    matchAt regex s = none := by
  simp [matchAt, regex_eq, run_lits_miss _ _ s [] h]

theorem findFrom_eq_none_iff (s : List Char) :
    findFrom regex s = none ↔ ¬ importPrefix.data <:+: s := by
  induction s with
  | nil =>
    have h : ¬ importPrefix.data <+: [] := by decide
    have h2 : ¬ importPrefix.data <:+: [] := by decide
    simp [findFrom, matchAt_miss [] h, h2]
  | cons c cs ih =>
    by_cases hp : importPrefix.data <+: (c :: cs)
    · obtain ⟨rest, hrest⟩ := hp
      have hin : importPrefix.data <:+: (c :: cs) := ⟨[], rest, by simpa using hrest⟩
      simp only [findFrom, ← hrest, matchAt_hit]
      simp [hrest, hin]
    · simp only [findFrom, matchAt_miss _ hp, ih, List.infix_cons_iff]
      simp [hp]

theorem findFrom_leftmost (pre rest : List Char)
    (hleft : ∀ pre1 rest1 : List Char,
      pre1 ++ importPrefix.data ++ rest1 = pre ++ importPrefix.data ++ rest →
        pre.length ≤ pre1.length) :
    findFrom regex (pre ++ importPrefix.data ++ rest) =
      some [importPrefix.data ++ rest.takeWhile notLF, rest.takeWhile notLF] := by
  induction pre with
  | nil =>
    have hne : importPrefix.data ++ rest = '/' :: (importPrefix.data.tail ++ rest) := rfl
    have hm := matchAt_hit rest
    simp only [List.nil_append]
    rw [hne] at hm ⊢
    simp only [findFrom, hm]
  | cons c cs ih =>
    have hp : ¬ importPrefix.data <+: (c :: (cs ++ importPrefix.data ++ rest)) := by
      rintro ⟨r1, hr1⟩
      have := hleft [] r1 (by simpa using hr1)
      simp at this
    rw [List.cons_append, List.cons_append, findFrom_cons, matchAt_miss _ hp]
    show findFrom regex (cs ++ importPrefix.data ++ rest) = _
    apply ih
    intro pre1 rest1 h1
    have := hleft (c :: pre1) rest1 (by simp [← h1])
    simpa using this

/-! ## Properties of the importer -/

theorem set_attrs (d : ResourceData) (key : String) (v : Value) (s : Schema)
    (hk : schemaLookup key = some s) (hv : v.fits s.Type_ = true) :
    d.Set key v = { d with attrs := fun k => if k = key then some v else d.attrs k } := by
  simp [ResourceData.Set, hk, hv]

theorem lookup_sid : schemaLookup "sid" = some { Type_ := .TypeString, Computed := true } := by
  decide

theorem importerState_of_find_some (d : ResourceData) (w g : List Char)
    (h : findFrom regex d.Id.data = some [w, g]) :
    Importer.State d =
      ((d.Set "sid" (.str (String.mk g))).SetId (String.mk g),
        .ok [(d.Set "sid" (.str (String.mk g))).SetId (String.mk g)]) := by
  simp [Importer.State, Regex.FindStringSubmatch, h]

theorem importerState_of_find_none (d : ResourceData)
    (h : findFrom regex d.Id.data = none) :
    Importer.State d =
      (d, .error ("The imported ID (" ++ d.Id ++ ") does not match the format (" ++ format ++ ")")) := by
  unfold Importer.State Regex.FindStringSubmatch
  rw [h]

theorem contains_iff_data (id : String) :
    importPrefix.data <:+: id.data ↔ ∃ a b : String, id = a ++ importPrefix ++ b := by
  constructor
  · rintro ⟨a, b, h⟩
    exact ⟨String.mk a, String.mk b, String.ext (by simp [String.data_append, h])⟩
  · rintro ⟨a, b, h⟩
    exact ⟨a.data, b.data, by simp [h, String.data_append]⟩

theorem dropWhile_notLF_cases (l : List Char) :
    l.dropWhile notLF = [] ∨ ∃ t, l.dropWhile notLF = '\n' :: t := by
  induction l with
  | nil => exact Or.inl rfl
  | cons x xs ih =>
    by_cases hx : x = '\n'
    · subst hx
      exact Or.inr ⟨xs, by simp [List.dropWhile, notLF]⟩
    · have hx2 : notLF x = true := by simp [notLF, hx]
      simpa [List.dropWhile, hx2] using ih

theorem importerState_leftmost (d : ResourceData) (pre rest : String)
    (hid : d.Id = pre ++ importPrefix ++ rest)
    (hleft : ∀ pre1 rest1 : String, d.Id = pre1 ++ importPrefix ++ rest1 →
      pre.length ≤ pre1.length) :
    Importer.State d =
      ((d.Set "sid" (.str (String.mk (rest.data.takeWhile notLF)))).SetId
          (String.mk (rest.data.takeWhile notLF)),
        .ok [(d.Set "sid" (.str (String.mk (rest.data.takeWhile notLF)))).SetId
          (String.mk (rest.data.takeWhile notLF))]) := by
  have hdata : d.Id.data = pre.data ++ importPrefix.data ++ rest.data := by
    rw [hid]; simp [String.data_append]
  apply importerState_of_find_some d (importPrefix.data ++ rest.data.takeWhile notLF)
  rw [hdata]
  apply findFrom_leftmost
  intro pre1 rest1 h1
  have := hleft (String.mk pre1) (String.mk rest1)
    (String.ext (by simp [String.data_append, hdata, h1]))
  exact this

theorem findFrom_some_shape (s : List Char) (m : List (List Char))
    (h : findFrom regex s = some m) : ∃ w g, m = [w, g] := by
  induction s with
  | nil =>
    have hp : ¬ importPrefix.data <+: [] := by decide
    simp [findFrom, matchAt_miss [] hp] at h
  | cons c cs ih =>
    by_cases hp : importPrefix.data <+: (c :: cs)
    · obtain ⟨rest, hrest⟩ := hp
      have hl := findFrom_leftmost [] rest (fun _ _ _ => Nat.zero_le _)
      rw [List.nil_append] at hl
      rw [← hrest, hl] at h
      exact ⟨_, _, (Option.some.inj h).symm⟩
    · rw [findFrom_cons, matchAt_miss _ hp] at h
      exact ih h

theorem importerState_leftmost_data (d : ResourceData) (pre rest : List Char)
    (hid : d.Id.data = pre ++ importPrefix.data ++ rest)
    (hleft : ∀ pre1 rest1 : List Char,
      pre1 ++ importPrefix.data ++ rest1 = pre ++ importPrefix.data ++ rest →
        pre.length ≤ pre1.length) :
    Importer.State d =
      ((d.Set "sid" (.str (String.mk (rest.takeWhile notLF)))).SetId
          (String.mk (rest.takeWhile notLF)),
        .ok [(d.Set "sid" (.str (String.mk (rest.takeWhile notLF)))).SetId
          (String.mk (rest.takeWhile notLF))]) := by
  apply importerState_of_find_some d (importPrefix.data ++ rest.takeWhile notLF)
  rw [hid]
  exact findFrom_leftmost pre rest hleft

theorem set_sid_attrs (d : ResourceData) (s : String) (k : String) :
    (d.Set "sid" (.str s)).attrs k = if k = "sid" then some (.str s) else d.attrs k := by
  rw [set_attrs d "sid" (.str s) _ lookup_sid rfl]

theorem upToLineFeed_spec (rest : String) :
    '\n' ∉ (upToLineFeed rest).data ∧
      (rest = upToLineFeed rest ∨ ∃ tail : String, rest = upToLineFeed rest ++ "\n" ++ tail) := by
  constructor
  · intro hmem
    have := List.mem_takeWhile_imp hmem
    simp [notLF] at this
  · have h := List.takeWhile_append_dropWhile notLF rest.data
    rcases dropWhile_notLF_cases rest.data with h0 | ⟨t, ht⟩
    · left
      apply String.ext
      rw [h0, List.append_nil] at h
      exact h.symm
    · right
      refine ⟨String.mk t, String.ext ?_⟩
      rw [ht] at h
      simp only [String.data_append, upToLineFeed]
      rw [List.append_assoc]
      exact h.symm

theorem importError_eq (id : String) :
    "The imported ID (" ++ id ++ ") does not match the format (" ++ format ++ ")" =
      "The imported ID (" ++ id ++
        ") does not match the format (/Configuration/Addresses/(.*))" := by
  apply String.ext
  simp only [String.data_append, List.append_assoc]
  rfl

/-- C1 (import of a canonical ID): when the ID is "/Configuration/Addresses/"
followed by a text `s` without line feed, the importer's State function returns
no error and the list holding just the resource, whose ID and "sid" attribute
are then both `s`. -/
theorem import_canonical_id (d : ResourceData) (s : String) (hs : '\n' ∉ s.data)
    (hid : d.Id = "/Configuration/Addresses/" ++ s) :
    (Importer.State d).2 = .ok [(Importer.State d).1] ∧
      (Importer.State d).1.Id = s ∧
      (Importer.State d).1.attrs "sid" = some (.str s) := by
  have hdata : d.Id.data = [] ++ importPrefix.data ++ s.data := by
    rw [hid]; simp [String.data_append, importPrefix]
  have htw : s.data.takeWhile notLF = s.data := by
    rw [List.takeWhile_eq_self_iff]
    intro x hx
    have : x ≠ '\n' := fun h => hs (h ▸ hx)
    simp [notLF, this]
  have h := importerState_leftmost_data d [] s.data hdata (fun _ _ _ => Nat.zero_le _)
  rw [htw] at h
  rw [h]
  refine ⟨rfl, rfl, ?_⟩
  show (d.Set "sid" (.str s)).attrs "sid" = _
  rw [set_sid_attrs]
  simp

/-- Witness of C1 on the ID "/Configuration/Addresses/IG123". -/
theorem import_canonical_id_witness :
    (Importer.State ⟨"/Configuration/Addresses/IG123", fun _ => none⟩).2 =
        .ok [(Importer.State ⟨"/Configuration/Addresses/IG123", fun _ => none⟩).1] ∧
      (Importer.State ⟨"/Configuration/Addresses/IG123", fun _ => none⟩).1.Id = "IG123" ∧
      (Importer.State ⟨"/Configuration/Addresses/IG123", fun _ => none⟩).1.attrs "sid" =
        some (.str "IG123") :=
  import_canonical_id ⟨"/Configuration/Addresses/IG123", fun _ => none⟩ "IG123"
    (by decide) (by decide)

/-- C2 (import rejection): the importer's State function returns an error
exactly when the ID does not contain "/Configuration/Addresses/"; when it does
return one, the resource data is as before (ID and "sid" included), nothing is
returned beside the error, and the error text is "The imported ID (<id>) does
not match the format (/Configuration/Addresses/(.*))". -/
theorem import_rejects_iff (d : ResourceData) :
    ((∃ e, (Importer.State d).2 = .error e) ↔
        ¬ ∃ a b : String, d.Id = a ++ "/Configuration/Addresses/" ++ b) ∧
      ((∃ e, (Importer.State d).2 = .error e) →
        (Importer.State d).1 = d ∧
        (Importer.State d).2 = .error
          ("The imported ID (" ++ d.Id ++
            ") does not match the format (/Configuration/Addresses/(.*))")) := by
  have hinf := contains_iff_data d.Id
  cases hf : findFrom regex d.Id.data with
  | none =>
    have hs := importerState_of_find_none d hf
    have hni := (findFrom_eq_none_iff d.Id.data).mp hf
    refine ⟨⟨fun _ => fun hc => hni (hinf.mpr hc), fun _ => ⟨_, by rw [hs]⟩⟩, fun _ => ?_⟩
    rw [hs]
    exact ⟨rfl, congrArg Except.error (importError_eq d.Id)⟩
  | some m =>
    obtain ⟨w, g, rfl⟩ := findFrom_some_shape _ _ hf
    have hs := importerState_of_find_some d w g hf
    have hi : importPrefix.data <:+: d.Id.data := by
      by_contra hc
      rw [(findFrom_eq_none_iff d.Id.data).mpr hc] at hf
      exact Option.noConfusion hf
    have hne : ¬ ∃ e, (Importer.State d).2 = .error e := by
      rintro ⟨e, he⟩
      rw [hs] at he
      exact Except.noConfusion he
    exact ⟨⟨fun h => absurd h hne, fun h => absurd (hinf.mp hi) h⟩, fun h => absurd h hne⟩

/-- Witness of C2 on the ID "IG123", which lacks the prefix. -/
theorem import_rejects_iff_witness :
    (Importer.State ⟨"IG123", fun _ => none⟩).2 =
      .error "The imported ID (IG123) does not match the format (/Configuration/Addresses/(.*))" :=
  ((import_rejects_iff ⟨"IG123", fun _ => none⟩).2 ⟨_, (by rfl)⟩).2

theorem exists_leftmost (p s : List Char) (h : p <:+: s) :
    ∃ pre rest, s = pre ++ p ++ rest ∧
      ∀ pre1 rest1 : List Char, pre1 ++ p ++ rest1 = s → pre.length ≤ pre1.length := by
  induction s with
  | nil =>
    obtain ⟨a, b, hab⟩ := h
    exact ⟨a, b, hab.symm, fun pre1 rest1 h1 => by
      have ha : a = [] := by
        cases a with
        | nil => rfl
        | cons x xs => simp at hab
      simp [ha]⟩
  | cons c cs ih =>
    by_cases hp : p <+: (c :: cs)
    · obtain ⟨rest, hrest⟩ := hp
      exact ⟨[], rest, by rw [List.nil_append]; exact hrest.symm, fun _ _ _ => Nat.zero_le _⟩
    · have hcs : p <:+: cs := by
        rcases List.infix_cons_iff.mp h with h1 | h1
        · exact absurd h1 hp
        · exact h1
      obtain ⟨pre, rest, hs, hmin⟩ := ih hcs
      refine ⟨c :: pre, rest, by simp [hs], ?_⟩
      intro pre1 rest1 h1
      cases pre1 with
      | nil => exact absurd ⟨rest1, by simpa using h1⟩ hp
      | cons x xs =>
        simp only [List.cons_append, List.cons.injEq] at h1
        have := hmin xs rest1 h1.2
        simpa using this

/-- C10 (the import pattern is unanchored and greedy): an ID that contains
"/Configuration/Addresses/" has a leftmost occurrence of it, and with `pre` the
text before that occurrence and `rest` the text after it, the importer succeeds
and sets both the ID and "sid" to `rest` cut before its first line feed (all of
`rest` when it has none); `pre` is dropped and no other attribute changes. -/
theorem import_unanchored_greedy (d : ResourceData)
    (hc : ∃ a b : String, d.Id = a ++ "/Configuration/Addresses/" ++ b) :
    (∃ pre rest : String, d.Id = pre ++ "/Configuration/Addresses/" ++ rest ∧
      ∀ pre1 rest1 : String,
        d.Id = pre1 ++ "/Configuration/Addresses/" ++ rest1 → pre.length ≤ pre1.length) ∧
    ∀ pre rest : String, d.Id = pre ++ "/Configuration/Addresses/" ++ rest →
      (∀ pre1 rest1 : String,
        d.Id = pre1 ++ "/Configuration/Addresses/" ++ rest1 → pre.length ≤ pre1.length) →
      ('\n' ∉ (upToLineFeed rest).data ∧
        (rest = upToLineFeed rest ∨
          ∃ tail : String, rest = upToLineFeed rest ++ "\n" ++ tail)) ∧
      (Importer.State d).2 = .ok [(Importer.State d).1] ∧
      (Importer.State d).1.Id = upToLineFeed rest ∧
      (Importer.State d).1.attrs "sid" = some (.str (upToLineFeed rest)) ∧
      ∀ k, k ≠ "sid" → (Importer.State d).1.attrs k = d.attrs k := by
  constructor
  · obtain ⟨pre, rest, hs, hmin⟩ :=
      exists_leftmost importPrefix.data d.Id.data ((contains_iff_data d.Id).mpr hc)
    refine ⟨String.mk pre, String.mk rest, String.ext ?_, ?_⟩
    · simp only [String.data_append]
      exact hs
    · intro pre1 rest1 h1
      have hd := congrArg String.data h1
      simp only [String.data_append] at hd
      exact hmin pre1.data rest1.data hd.symm
  · intro pre rest hid hleft
    have h := importerState_leftmost d pre rest hid hleft
    refine ⟨upToLineFeed_spec rest, ?_⟩
    rw [h]
    refine ⟨rfl, rfl, ?_, ?_⟩
    · show (d.Set "sid" (.str (upToLineFeed rest))).attrs "sid" = _
      rw [set_sid_attrs]
      simp
    · intro k hk
      show (d.Set "sid" (.str (upToLineFeed rest))).attrs k = _
      rw [set_sid_attrs]
      simp [hk]

/-- Witness of C10: the bare ID "/Configuration/Addresses/" imports with an
empty ID and an empty "sid"; in "x/Configuration/Addresses/a/Configuration/Addresses/b\nc"
the leading "x" is dropped, the second occurrence stays in the SID and the SID
ends before the line feed. -/
theorem import_unanchored_greedy_witness :
    ((Importer.State ⟨"/Configuration/Addresses/", fun _ => none⟩).2 =
        .ok [(Importer.State ⟨"/Configuration/Addresses/", fun _ => none⟩).1] ∧
      (Importer.State ⟨"/Configuration/Addresses/", fun _ => none⟩).1.Id = "" ∧
      (Importer.State ⟨"/Configuration/Addresses/", fun _ => none⟩).1.attrs "sid" =
        some (.str "")) ∧
    ((Importer.State
        ⟨"x/Configuration/Addresses/a/Configuration/Addresses/b\nc", fun _ => none⟩).1.Id =
        "a/Configuration/Addresses/b" ∧
      (Importer.State
        ⟨"x/Configuration/Addresses/a/Configuration/Addresses/b\nc", fun _ => none⟩).1.attrs
          "sid" = some (.str "a/Configuration/Addresses/b")) :=
  have h := (import_unanchored_greedy ⟨"/Configuration/Addresses/", fun _ => none⟩
    ⟨"", "", by decide⟩).2 "" "" (by decide) (fun _ _ _ => Nat.zero_le _)
  have h2 := (import_unanchored_greedy
    ⟨"x/Configuration/Addresses/a/Configuration/Addresses/b\nc", fun _ => none⟩
    ⟨"x", "a/Configuration/Addresses/b\nc", by decide⟩).2
    "x" "a/Configuration/Addresses/b\nc" (by decide)
    (fun pre1 rest1 hp => by
      have hd := congrArg String.data hp
      simp only [String.data_append] at hd
      cases hq : pre1.data with
      | nil =>
        rw [hq] at hd
        have hd2 : ('x' :: _ : List Char) = '/' :: _ := hd
        exact absurd (List.cons.inj hd2).1 (by decide)
      | cons c cs =>
        show 1 ≤ pre1.data.length
        rw [hq]
        exact Nat.succ_le_succ (Nat.zero_le _))
  ⟨⟨h.2.1, h.2.2.1, h.2.2.2.1⟩, h2.2.2.1, h2.2.2.2.1⟩

/-! ## Properties of read, create, update and delete -/

theorem fits_ofString? (x : Option String) :
    Value.fits .TypeString (Value.ofString? x) = true := by
  cases x <;> rfl

theorem fits_ofStrings? (x : Option (List String)) :
    Value.fits .TypeList (Value.ofStrings? x) = true := by
  cases x <;> rfl

theorem fits_str (x : String) : Value.fits .TypeString (.str x) = true := rfl

theorem fits_bool (x : Bool) : Value.fits .TypeBool (.bool x) = true := rfl

theorem setAll_id (d : ResourceData) (ws : List (String × Value)) :
    (setAll d ws).id = d.id := by
  induction ws generalizing d with
  | nil => rfl
  | cons kv ws ih =>
    show (setAll (d.Set kv.1 kv.2) ws).id = d.id
    rw [ih]
    unfold ResourceData.Set
    split
    · split <;> rfl
    · rfl

theorem read_attrs_some (d : ResourceData) (r : FetchAddressResponse) (t : Time)
    (ht : r.DateUpdated = some t) (k : String) :
    (setAll d (readWrites r)).attrs k =
      if k = "url" then some (.str r.URL)
      else if k = "date_updated" then some (.str t.FormatRFC3339)
      else if k = "date_created" then some (.str r.DateCreated.FormatRFC3339)
      else if k = "webhook_url" then some (.ofString? r.AutoCreation.WebhookUrl)
      else if k = "webhook_method" then some (.ofString? r.AutoCreation.WebhookMethod)
      else if k = "webhook_filters" then some (.ofStrings? r.AutoCreation.WebhookFilters)
      else if k = "type" then some (.str r.Type_)
      else if k = "integration_type" then some (.str r.AutoCreation.Type_)
      else if k = "enabled" then some (.bool r.AutoCreation.Enabled)
      else if k = "friendly_name" then some (.ofString? r.FriendlyName)
      else if k = "service_sid" then some (.ofString? r.AutoCreation.ConversationServiceSid)
      else if k = "address" then some (.str r.Address)
      else if k = "account_sid" then some (.str r.AccountSid)
      else if k = "sid" then some (.str r.Sid)
      else d.attrs k := by
  simp [setAll, readWrites, ht, ResourceData.Set, schemaLookup, resourceSchema, fits_str,
    fits_bool, fits_ofString?, fits_ofStrings?]

theorem read_attrs_none (d : ResourceData) (r : FetchAddressResponse)
    (ht : r.DateUpdated = none) (k : String) :
    (setAll d (readWrites r)).attrs k =
      if k = "url" then some (.str r.URL)
      else if k = "date_created" then some (.str r.DateCreated.FormatRFC3339)
      else if k = "webhook_url" then some (.ofString? r.AutoCreation.WebhookUrl)
      else if k = "webhook_method" then some (.ofString? r.AutoCreation.WebhookMethod)
      else if k = "webhook_filters" then some (.ofStrings? r.AutoCreation.WebhookFilters)
      else if k = "type" then some (.str r.Type_)
      else if k = "integration_type" then some (.str r.AutoCreation.Type_)
      else if k = "enabled" then some (.bool r.AutoCreation.Enabled)
      else if k = "friendly_name" then some (.ofString? r.FriendlyName)
      else if k = "service_sid" then some (.ofString? r.AutoCreation.ConversationServiceSid)
      else if k = "address" then some (.str r.Address)
      else if k = "account_sid" then some (.str r.AccountSid)
      else if k = "sid" then some (.str r.Sid)
      else d.attrs k := by
  simp [setAll, readWrites, ht, ResourceData.Set, schemaLookup, resourceSchema, fits_str,
    fits_bool, fits_ofString?, fits_ofStrings?]

section

variable {W E : Type}

theorem read_ok (c : Client W E) (u : Utils E) (w w1 : W) (d : ResourceData)
    (r : FetchAddressResponse) (hfetch : c.FetchWithContext w d.Id = (.ok r, w1)) :
    resourceConversationsAddressConfigurationWebhookRead c u w d =
      ⟨[], setAll d (readWrites r), w1, [.Fetch d.Id]⟩ := by
  simp only [resourceConversationsAddressConfigurationWebhookRead, hfetch]

theorem read_error (c : Client W E) (u : Utils E) (w w1 : W) (d : ResourceData)
    (err : E) (hfetch : c.FetchWithContext w d.Id = (.error err, w1)) :
    resourceConversationsAddressConfigurationWebhookRead c u w d =
      if u.IsNotFoundError err then ⟨[], d.SetId "", w1, [.Fetch d.Id]⟩
      else ⟨diagErrorf ("Failed to read address configuration webhook: " ++ c.Error err),
        d, w1, [.Fetch d.Id]⟩ := by
  simp only [resourceConversationsAddressConfigurationWebhookRead, hfetch]

/-- The attributes after a successful read, other than `date_updated`, as a
function of the response. -/
theorem read_attrs_other (d : ResourceData) (r : FetchAddressResponse) (k : String)
    (hk : k ≠ "date_updated") :
    (setAll d (readWrites r)).attrs k =
      (setAll d (readWrites { r with DateUpdated := none })).attrs k := by
  cases ht : r.DateUpdated with
  | none =>
    rw [read_attrs_none d r ht, read_attrs_none d _ rfl]
  | some t =>
    rw [read_attrs_some d r t ht, read_attrs_none d _ rfl]
    simp [hk]

end

section

variable {W E : Type}

/-- C4 (read copies every field back): after a successful fetch by the current
ID, the read function returns no diagnostics, keeps the ID and stores each
response field under its attribute: a plain field as its value, a pointer field
as the value it points to (nil when the pointer is nil), the filters as the
same list, `date_created` as the RFC3339 text of `DateCreated`; every key it
writes is declared in the schema, and when `DateUpdated` is present every
declared attribute is written. -/
theorem read_copies_every_field (c : Client W E) (u : Utils E) (w w1 : W)
    (d : ResourceData) (r : FetchAddressResponse)
    (hfetch : c.FetchWithContext w d.Id = (.ok r, w1)) :
    (resourceConversationsAddressConfigurationWebhookRead c u w d).diags = [] ∧
    (resourceConversationsAddressConfigurationWebhookRead c u w d).d.Id = d.Id ∧
    (resourceConversationsAddressConfigurationWebhookRead c u w d).calls = [.Fetch d.Id] ∧
    (resourceConversationsAddressConfigurationWebhookRead c u w d).d.attrs "sid" =
      some (.str r.Sid) ∧
    (resourceConversationsAddressConfigurationWebhookRead c u w d).d.attrs "account_sid" =
      some (.str r.AccountSid) ∧
    (resourceConversationsAddressConfigurationWebhookRead c u w d).d.attrs "address" =
      some (.str r.Address) ∧
    (resourceConversationsAddressConfigurationWebhookRead c u w d).d.attrs "type" =
      some (.str r.Type_) ∧
    (resourceConversationsAddressConfigurationWebhookRead c u w d).d.attrs "url" =
      some (.str r.URL) ∧
    (resourceConversationsAddressConfigurationWebhookRead c u w d).d.attrs "enabled" =
      some (.bool r.AutoCreation.Enabled) ∧
    (resourceConversationsAddressConfigurationWebhookRead c u w d).d.attrs "integration_type" =
      some (.str r.AutoCreation.Type_) ∧
    (resourceConversationsAddressConfigurationWebhookRead c u w d).d.attrs "date_created" =
      some (.str r.DateCreated.FormatRFC3339) ∧
    ((∀ s, r.FriendlyName = some s →
        (resourceConversationsAddressConfigurationWebhookRead c u w d).d.attrs "friendly_name" =
          some (.str s)) ∧
      (r.FriendlyName = none →
        (resourceConversationsAddressConfigurationWebhookRead c u w d).d.attrs "friendly_name" =
          some .null)) ∧
    ((∀ s, r.AutoCreation.ConversationServiceSid = some s →
        (resourceConversationsAddressConfigurationWebhookRead c u w d).d.attrs "service_sid" =
          some (.str s)) ∧
      (r.AutoCreation.ConversationServiceSid = none →
        (resourceConversationsAddressConfigurationWebhookRead c u w d).d.attrs "service_sid" =
          some .null)) ∧
    ((∀ xs, r.AutoCreation.WebhookFilters = some xs →
        (resourceConversationsAddressConfigurationWebhookRead c u w d).d.attrs "webhook_filters" =
          some (.list xs)) ∧
      (r.AutoCreation.WebhookFilters = none →
        (resourceConversationsAddressConfigurationWebhookRead c u w d).d.attrs "webhook_filters" =
          some .null)) ∧
    ((∀ s, r.AutoCreation.WebhookMethod = some s →
        (resourceConversationsAddressConfigurationWebhookRead c u w d).d.attrs "webhook_method" =
          some (.str s)) ∧
      (r.AutoCreation.WebhookMethod = none →
        (resourceConversationsAddressConfigurationWebhookRead c u w d).d.attrs "webhook_method" =
          some .null)) ∧
    ((∀ s, r.AutoCreation.WebhookUrl = some s →
        (resourceConversationsAddressConfigurationWebhookRead c u w d).d.attrs "webhook_url" =
          some (.str s)) ∧
      (r.AutoCreation.WebhookUrl = none →
        (resourceConversationsAddressConfigurationWebhookRead c u w d).d.attrs "webhook_url" =
          some .null)) ∧
    (∀ kv ∈ readWrites r, kv.1 ∈ resourceSchema.map Prod.fst) ∧
    (r.DateUpdated.isSome = true →
      ∀ k ∈ resourceSchema.map Prod.fst, ∃ v, (k, v) ∈ readWrites r ∧
        (resourceConversationsAddressConfigurationWebhookRead c u w d).d.attrs k = some v) := by
  rw [read_ok c u w w1 d r hfetch]
  have hattr : ∀ k, (setAll d (readWrites r)).attrs k =
      if k = "date_updated" then
        (match r.DateUpdated with
          | some t => some (.str t.FormatRFC3339)
          | none => d.attrs "date_updated")
      else (setAll d (readWrites { r with DateUpdated := none })).attrs k := by
    intro k
    by_cases hk : k = "date_updated"
    · subst hk
      cases ht : r.DateUpdated with
      | none => rw [read_attrs_none d r ht]; simp
      | some t => rw [read_attrs_some d r t ht]; simp
    · rw [read_attrs_other d r k hk, if_neg hk]
  have hnone := read_attrs_none d { r with DateUpdated := none } rfl
  refine ⟨rfl, setAll_id d _, rfl, ?_, ?_, ?_, ?_, ?_, ?_, ?_, ?_, ⟨?_, ?_⟩, ⟨?_, ?_⟩, ⟨?_, ?_⟩,
    ⟨?_, ?_⟩, ⟨?_, ?_⟩, ?_, ?_⟩
  · show (setAll d (readWrites r)).attrs "sid" = _
    rw [hattr, hnone]; simp
  · show (setAll d (readWrites r)).attrs "account_sid" = _
    rw [hattr, hnone]; simp
  · show (setAll d (readWrites r)).attrs "address" = _
    rw [hattr, hnone]; simp
  · show (setAll d (readWrites r)).attrs "type" = _
    rw [hattr, hnone]; simp
  · show (setAll d (readWrites r)).attrs "url" = _
    rw [hattr, hnone]; simp
  · show (setAll d (readWrites r)).attrs "enabled" = _
    rw [hattr, hnone]; simp
  · show (setAll d (readWrites r)).attrs "integration_type" = _
    rw [hattr, hnone]; simp
  · show (setAll d (readWrites r)).attrs "date_created" = _
    rw [hattr, hnone]; simp
  · intro s hs
    show (setAll d (readWrites r)).attrs "friendly_name" = _
    rw [hattr, hnone]; simp [hs, Value.ofString?]
  · intro hs
    show (setAll d (readWrites r)).attrs "friendly_name" = _
    rw [hattr, hnone]; simp [hs, Value.ofString?]
  · intro s hs
    show (setAll d (readWrites r)).attrs "service_sid" = _
    rw [hattr, hnone]; simp [hs, Value.ofString?]
  · intro hs
    show (setAll d (readWrites r)).attrs "service_sid" = _
    rw [hattr, hnone]; simp [hs, Value.ofString?]
  · intro xs hs
    show (setAll d (readWrites r)).attrs "webhook_filters" = _
    rw [hattr, hnone]; simp [hs, Value.ofStrings?]
  · intro hs
    show (setAll d (readWrites r)).attrs "webhook_filters" = _
    rw [hattr, hnone]; simp [hs, Value.ofStrings?]
  · intro s hs
    show (setAll d (readWrites r)).attrs "webhook_method" = _
    rw [hattr, hnone]; simp [hs, Value.ofString?]
  · intro hs
    show (setAll d (readWrites r)).attrs "webhook_method" = _
    rw [hattr, hnone]; simp [hs, Value.ofString?]
  · intro s hs
    show (setAll d (readWrites r)).attrs "webhook_url" = _
    rw [hattr, hnone]; simp [hs, Value.ofString?]
  · intro hs
    show (setAll d (readWrites r)).attrs "webhook_url" = _
    rw [hattr, hnone]; simp [hs, Value.ofString?]
  · cases ht : r.DateUpdated with
    | none => simp [readWrites, ht, resourceSchema]
    | some t => simp [readWrites, ht, resourceSchema]
  · intro hsome
    cases ht : r.DateUpdated with
    | none => rw [ht] at hsome; exact absurd hsome (by decide)
    | some t =>
      show ∀ k ∈ resourceSchema.map Prod.fst, ∃ v, (k, v) ∈ readWrites r ∧
        (setAll d (readWrites r)).attrs k = some v
      simp only [read_attrs_some d r t ht]
      simp [readWrites, ht, resourceSchema]

end

/-- Witness of C4: reading `IG1` from the sample service stores all 14
attributes of the sample response, each with the value of its field; reading a
response without the optional fields stores nil under their attributes. -/
theorem read_copies_every_field_witness :
    sampleClient.FetchWithContext () sampleData.Id = (.ok sampleResponse, ()) ∧
    (resourceConversationsAddressConfigurationWebhookRead sampleClient sampleUtils ()
      sampleData).d.attrs "sid" = some (.str "IG1") ∧
    (resourceConversationsAddressConfigurationWebhookRead sampleClient sampleUtils ()
      sampleData).d.attrs "account_sid" = some (.str "AC1") ∧
    (resourceConversationsAddressConfigurationWebhookRead sampleClient sampleUtils ()
      sampleData).d.attrs "address" = some (.str "+15550100") ∧
    (resourceConversationsAddressConfigurationWebhookRead sampleClient sampleUtils ()
      sampleData).d.attrs "type" = some (.str "sms") ∧
    (resourceConversationsAddressConfigurationWebhookRead sampleClient sampleUtils ()
      sampleData).d.attrs "url" =
        some (.str "https://conversations.example.com/v1/Configuration/Addresses/IG1") ∧
    (resourceConversationsAddressConfigurationWebhookRead sampleClient sampleUtils ()
      sampleData).d.attrs "enabled" = some (.bool true) ∧
    (resourceConversationsAddressConfigurationWebhookRead sampleClient sampleUtils ()
      sampleData).d.attrs "integration_type" = some (.str "webhook") ∧
    (resourceConversationsAddressConfigurationWebhookRead sampleClient sampleUtils ()
      sampleData).d.attrs "date_created" = some (.str "2021-03-04T05:06:07Z") ∧
    (resourceConversationsAddressConfigurationWebhookRead sampleClient sampleUtils ()
      sampleData).d.attrs "friendly_name" = some (.str "support") ∧
    (resourceConversationsAddressConfigurationWebhookRead sampleClient sampleUtils ()
      sampleData).d.attrs "service_sid" = some (.str "IS1") ∧
    (resourceConversationsAddressConfigurationWebhookRead sampleClient sampleUtils ()
      sampleData).d.attrs "webhook_filters" =
        some (.list ["onMessageAdded", "onDeliveryUpdated"]) ∧
    (resourceConversationsAddressConfigurationWebhookRead sampleClient sampleUtils ()
      sampleData).d.attrs "webhook_method" = some (.str "POST") ∧
    (resourceConversationsAddressConfigurationWebhookRead sampleClient sampleUtils ()
      sampleData).d.attrs "webhook_url" = some (.str "https://example.com/hook") ∧
    (resourceConversationsAddressConfigurationWebhookRead bareClient sampleUtils ()
      sampleData).d.attrs "friendly_name" = some .null ∧
    (resourceConversationsAddressConfigurationWebhookRead bareClient sampleUtils ()
      sampleData).d.attrs "webhook_filters" = some .null := by
  obtain ⟨_, _, _, hsid, hacc, haddr, htype, hurl, hen, hint, hdc, hfn, hsvc, hwf, hwm, hwu, _, _⟩ :=
    read_copies_every_field sampleClient sampleUtils () () sampleData sampleResponse (by rfl)
  obtain ⟨_, _, _, _, _, _, _, _, _, _, _, hfn2, _, hwf2, _, _, _, _⟩ :=
    read_copies_every_field bareClient sampleUtils () () sampleData bareResponse (by rfl)
  exact ⟨by rfl, hsid, hacc, haddr, htype, hurl, hen, hint, hdc.trans (by decide),
    hfn.1 "support" rfl, hsvc.1 "IS1" rfl, hwf.1 _ rfl, hwm.1 "POST" rfl,
    hwu.1 "https://example.com/hook" rfl, hfn2.2 rfl, hwf2.2 rfl⟩

section

variable {W E : Type}

/-- C9 (read writes `date_updated` only when the response has one): after a
successful fetch, `date_updated` keeps its prior value when `DateUpdated` is
nil and is its RFC3339 text otherwise; every other attribute has the value it
has after reading any response that differs in `DateUpdated` alone. -/
theorem read_date_updated_frame (c : Client W E) (u : Utils E) (w w1 : W)
    (d : ResourceData) (r : FetchAddressResponse)
    (hfetch : c.FetchWithContext w d.Id = (.ok r, w1)) :
    (r.DateUpdated = none →
      (resourceConversationsAddressConfigurationWebhookRead c u w d).d.attrs "date_updated" =
        d.attrs "date_updated") ∧
    (∀ t, r.DateUpdated = some t →
      (resourceConversationsAddressConfigurationWebhookRead c u w d).d.attrs "date_updated" =
        some (.str t.FormatRFC3339)) ∧
    (∀ (c2 : Client W E) (w2 w3 : W) (r2 : FetchAddressResponse),
      c2.FetchWithContext w2 d.Id = (.ok r2, w3) →
      { r2 with DateUpdated := r.DateUpdated } = r →
      ∀ k, k ≠ "date_updated" →
        (resourceConversationsAddressConfigurationWebhookRead c u w d).d.attrs k =
          (resourceConversationsAddressConfigurationWebhookRead c2 u w2 d).d.attrs k) := by
  rw [read_ok c u w w1 d r hfetch]
  refine ⟨fun ht => ?_, fun t ht => ?_, fun c2 w2 w3 r2 hf2 hr k hk => ?_⟩
  · show (setAll d (readWrites r)).attrs "date_updated" = _
    rw [read_attrs_none d r ht]
    simp
  · show (setAll d (readWrites r)).attrs "date_updated" = _
    rw [read_attrs_some d r t ht]
    simp
  · rw [read_ok c2 u w2 w3 d r2 hf2]
    show (setAll d (readWrites r)).attrs k = (setAll d (readWrites r2)).attrs k
    rw [read_attrs_other d r k hk, read_attrs_other d r2 k hk, ← hr]

/-- C8 (a missing remote object is a deletion): when the fetch fails with an
error classified as not-found, the read function returns no diagnostics, sets
the ID to the empty string and leaves the attributes alone; on any other fetch
error it returns the diagnostic "Failed to read address configuration webhook:
<message>" and leaves the resource data, ID included, alone. -/
theorem read_not_found_clears_id (c : Client W E) (u : Utils E) (w w1 : W)
    (d : ResourceData) (err : E)
    (hfetch : c.FetchWithContext w d.Id = (.error err, w1)) :
    (u.IsNotFoundError err = true →
      (resourceConversationsAddressConfigurationWebhookRead c u w d).diags = [] ∧
      (resourceConversationsAddressConfigurationWebhookRead c u w d).d.Id = "" ∧
      (resourceConversationsAddressConfigurationWebhookRead c u w d).d.attrs = d.attrs) ∧
    (u.IsNotFoundError err = false →
      (resourceConversationsAddressConfigurationWebhookRead c u w d).diags =
        [{ Severity := .Error,
           Summary := "Failed to read address configuration webhook: " ++ c.Error err }] ∧
      (resourceConversationsAddressConfigurationWebhookRead c u w d).d.Id = d.Id ∧
      (resourceConversationsAddressConfigurationWebhookRead c u w d).d = d) := by
  rw [read_error c u w w1 d err hfetch]
  constructor
  · intro h
    rw [if_pos h]
    exact ⟨rfl, rfl, rfl⟩
  · intro h
    rw [if_neg (by simp [h])]
    exact ⟨rfl, rfl, rfl⟩

end

/-- Witness of C9: the sample response without `DateUpdated` leaves the stored
`date_updated` of the sample data in place. -/
theorem read_date_updated_frame_witness :
    (resourceConversationsAddressConfigurationWebhookRead
      { sampleClient with
        FetchWithContext := fun w _ => (.ok { sampleResponse with DateUpdated := none }, w) }
      sampleUtils () sampleData).d.attrs "date_updated" =
        some (.str "2020-01-01T00:00:00Z") :=
  ((read_date_updated_frame
    { sampleClient with
      FetchWithContext := fun w _ => (.ok { sampleResponse with DateUpdated := none }, w) }
    sampleUtils () () sampleData { sampleResponse with DateUpdated := none } (by rfl)).1
    (by rfl)).trans (by decide)

/-- Witness of C8: the sample service does not know `IG9`, so reading it
empties the ID and reports nothing. -/
theorem read_not_found_clears_id_witness :
    (resourceConversationsAddressConfigurationWebhookRead sampleClient sampleUtils ()
      goneData).diags = [] ∧
    (resourceConversationsAddressConfigurationWebhookRead sampleClient sampleUtils ()
      goneData).d.Id = "" ∧
    (resourceConversationsAddressConfigurationWebhookRead sampleClient sampleUtils ()
      goneData).d.attrs = goneData.attrs :=
  (read_not_found_clears_id sampleClient sampleUtils () () goneData "not found" (by rfl)).1
    (by decide)

/-- C3 as stated fails for the read function: the sample service answers the
fetch of `IG9` with the SDK error `not found`, and the read function returns no
diagnostic at all and empties the ID, where the claim has one error diagnostic
and an untouched resource. -/
theorem read_error_wrap_counterexample :
    sampleClient.FetchWithContext () goneData.Id = (.error "not found", ()) ∧
    (resourceConversationsAddressConfigurationWebhookRead sampleClient sampleUtils ()
      goneData).diags = [] ∧
    (resourceConversationsAddressConfigurationWebhookRead sampleClient sampleUtils ()
      goneData).d.Id = "" ∧
    goneData.Id = "IG9" ∧
    ¬ ((resourceConversationsAddressConfigurationWebhookRead sampleClient sampleUtils ()
        goneData).diags =
          [{ Severity := .Error,
             Summary := "Failed to read address configuration webhook: " ++
               sampleClient.Error "not found" }] ∧
      (resourceConversationsAddressConfigurationWebhookRead sampleClient sampleUtils ()
        goneData).d.Id = goneData.Id) := by
  refine ⟨by rfl, by rfl, by rfl, by rfl, ?_⟩
  rintro ⟨h, _⟩
  exact List.noConfusion h

section

variable {W E : Type}

theorem create_error (c : Client W E) (u : Utils E) (w w1 : W) (d : ResourceData) (err : E)
    (h : c.CreateWithContext w (createInput u d) = (.error err, w1)) :
    resourceConversationsAddressConfigurationWebhookCreate c u w d =
      ⟨diagErrorf ("Failed to create address configuration webhook: " ++ c.Error err),
        d, w1, [.Create (createInput u d)]⟩ := by
  simp only [resourceConversationsAddressConfigurationWebhookCreate, h]

theorem create_ok (c : Client W E) (u : Utils E) (w w1 : W) (d : ResourceData)
    (res : CreateAddressResponse)
    (h : c.CreateWithContext w (createInput u d) = (.ok res, w1)) :
    resourceConversationsAddressConfigurationWebhookCreate c u w d =
      { resourceConversationsAddressConfigurationWebhookRead c u w1 (d.SetId res.Sid) with
        calls := .Create (createInput u d) ::
          (resourceConversationsAddressConfigurationWebhookRead c u w1 (d.SetId res.Sid)).calls } := by
  simp only [resourceConversationsAddressConfigurationWebhookCreate, h]

theorem update_error (c : Client W E) (u : Utils E) (w w1 : W) (d : ResourceData) (err : E)
    (h : c.UpdateWithContext w d.Id (updateInput u d) = (.error err, w1)) :
    resourceConversationsAddressConfigurationWebhookUpdate c u w d =
      ⟨diagErrorf ("Failed to update address configuration webhook: " ++ c.Error err),
        d, w1, [.Update d.Id (updateInput u d)]⟩ := by
  simp only [resourceConversationsAddressConfigurationWebhookUpdate, h]

theorem update_ok (c : Client W E) (u : Utils E) (w w1 : W) (d : ResourceData)
    (res : UpdateAddressResponse)
    (h : c.UpdateWithContext w d.Id (updateInput u d) = (.ok res, w1)) :
    resourceConversationsAddressConfigurationWebhookUpdate c u w d =
      { resourceConversationsAddressConfigurationWebhookRead c u w1 (d.SetId res.Sid) with
        calls := .Update d.Id (updateInput u d) ::
          (resourceConversationsAddressConfigurationWebhookRead c u w1 (d.SetId res.Sid)).calls } := by
  simp only [resourceConversationsAddressConfigurationWebhookUpdate, h]

theorem delete_error (c : Client W E) (w w1 : W) (d : ResourceData) (err : E)
    (h : c.DeleteWithContext w d.Id = (some err, w1)) :
    resourceConversationsAddressConfigurationWebhookDelete c w d =
      ⟨diagErrorf ("Failed to delete address configuration webhook: " ++ c.Error err),
        d, w1, [.Delete d.Id]⟩ := by
  simp only [resourceConversationsAddressConfigurationWebhookDelete, h]

theorem read_calls (c : Client W E) (u : Utils E) (w : W) (d : ResourceData) :
    (resourceConversationsAddressConfigurationWebhookRead c u w d).calls = [.Fetch d.Id] := by
  unfold resourceConversationsAddressConfigurationWebhookRead
  split
  · split <;> rfl
  · rfl

/-- C3, amended (a single pass-through error wrap): when the SDK call of
create, update or delete returns an error, and when the fetch of read returns
an error that is not classified as not-found, the operation returns exactly one
error diagnostic, with summary "Failed to <create|read|update|delete> address
configuration webhook: " followed by the error's message, leaves the resource
data (ID and attributes) as it was and issues no other SDK call. -/
theorem error_wrap_pass_through (c : Client W E) (u : Utils E) (w w1 : W)
    (d : ResourceData) (err : E) :
    (c.CreateWithContext w (createInput u d) = (.error err, w1) →
      (resourceConversationsAddressConfigurationWebhookCreate c u w d).diags =
        [{ Severity := .Error,
           Summary := "Failed to create address configuration webhook: " ++ c.Error err }] ∧
      (resourceConversationsAddressConfigurationWebhookCreate c u w d).d = d ∧
      (resourceConversationsAddressConfigurationWebhookCreate c u w d).calls =
        [.Create (createInput u d)]) ∧
    (c.FetchWithContext w d.Id = (.error err, w1) → u.IsNotFoundError err = false →
      (resourceConversationsAddressConfigurationWebhookRead c u w d).diags =
        [{ Severity := .Error,
           Summary := "Failed to read address configuration webhook: " ++ c.Error err }] ∧
      (resourceConversationsAddressConfigurationWebhookRead c u w d).d = d ∧
      (resourceConversationsAddressConfigurationWebhookRead c u w d).calls = [.Fetch d.Id]) ∧
    (c.UpdateWithContext w d.Id (updateInput u d) = (.error err, w1) →
      (resourceConversationsAddressConfigurationWebhookUpdate c u w d).diags =
        [{ Severity := .Error,
           Summary := "Failed to update address configuration webhook: " ++ c.Error err }] ∧
      (resourceConversationsAddressConfigurationWebhookUpdate c u w d).d = d ∧
      (resourceConversationsAddressConfigurationWebhookUpdate c u w d).calls =
        [.Update d.Id (updateInput u d)]) ∧
    (c.DeleteWithContext w d.Id = (some err, w1) →
      (resourceConversationsAddressConfigurationWebhookDelete c w d).diags =
        [{ Severity := .Error,
           Summary := "Failed to delete address configuration webhook: " ++ c.Error err }] ∧
      (resourceConversationsAddressConfigurationWebhookDelete c w d).d = d ∧
      (resourceConversationsAddressConfigurationWebhookDelete c w d).calls =
        [.Delete d.Id]) := by
  refine ⟨fun h => ?_, fun h hn => ?_, fun h => ?_, fun h => ?_⟩
  · rw [create_error c u w w1 d err h]
    exact ⟨rfl, rfl, rfl⟩
  · rw [read_error c u w w1 d err h, if_neg (by simp [hn])]
    exact ⟨rfl, rfl, rfl⟩
  · rw [update_error c u w w1 d err h]
    exact ⟨rfl, rfl, rfl⟩
  · rw [delete_error c w w1 d err h]
    exact ⟨rfl, rfl, rfl⟩

/-- C5 (create and update end in a refresh keyed by the returned SID): when
the SDK create (update) call succeeds with `Sid = x`, the operation returns the
diagnostics, resource data and remote state of the read function run on the
resource with ID `x`, and its calls are the create (update) call followed by
those of that read, which is the fetch of `x`; when the create (update) call
fails, no fetch is issued. -/
theorem create_update_refresh (c : Client W E) (u : Utils E) (w : W) (d : ResourceData) :
    (∀ res w1, c.CreateWithContext w (createInput u d) = (.ok res, w1) →
      (d.SetId res.Sid).Id = res.Sid ∧
      (resourceConversationsAddressConfigurationWebhookCreate c u w d).diags =
        (resourceConversationsAddressConfigurationWebhookRead c u w1 (d.SetId res.Sid)).diags ∧
      (resourceConversationsAddressConfigurationWebhookCreate c u w d).d =
        (resourceConversationsAddressConfigurationWebhookRead c u w1 (d.SetId res.Sid)).d ∧
      (resourceConversationsAddressConfigurationWebhookCreate c u w d).world =
        (resourceConversationsAddressConfigurationWebhookRead c u w1 (d.SetId res.Sid)).world ∧
      (resourceConversationsAddressConfigurationWebhookCreate c u w d).calls =
        [.Create (createInput u d), .Fetch res.Sid]) ∧
    (∀ err w1, c.CreateWithContext w (createInput u d) = (.error err, w1) →
      ∀ sid, Call.Fetch sid ∉ (resourceConversationsAddressConfigurationWebhookCreate c u w d).calls) ∧
    (∀ res w1, c.UpdateWithContext w d.Id (updateInput u d) = (.ok res, w1) →
      (d.SetId res.Sid).Id = res.Sid ∧
      (resourceConversationsAddressConfigurationWebhookUpdate c u w d).diags =
        (resourceConversationsAddressConfigurationWebhookRead c u w1 (d.SetId res.Sid)).diags ∧
      (resourceConversationsAddressConfigurationWebhookUpdate c u w d).d =
        (resourceConversationsAddressConfigurationWebhookRead c u w1 (d.SetId res.Sid)).d ∧
      (resourceConversationsAddressConfigurationWebhookUpdate c u w d).world =
        (resourceConversationsAddressConfigurationWebhookRead c u w1 (d.SetId res.Sid)).world ∧
      (resourceConversationsAddressConfigurationWebhookUpdate c u w d).calls =
        [.Update d.Id (updateInput u d), .Fetch res.Sid]) ∧
    (∀ err w1, c.UpdateWithContext w d.Id (updateInput u d) = (.error err, w1) →
      ∀ sid, Call.Fetch sid ∉ (resourceConversationsAddressConfigurationWebhookUpdate c u w d).calls) := by
  refine ⟨fun res w1 h => ?_, fun err w1 h sid => ?_, fun res w1 h => ?_, fun err w1 h sid => ?_⟩
  · rw [create_ok c u w w1 d res h]
    refine ⟨rfl, rfl, rfl, rfl, ?_⟩
    show _ :: (resourceConversationsAddressConfigurationWebhookRead c u w1 _).calls = _
    rw [read_calls]
    rfl
  · rw [create_error c u w w1 d err h]
    simp
  · rw [update_ok c u w w1 d res h]
    refine ⟨rfl, rfl, rfl, rfl, ?_⟩
    show _ :: (resourceConversationsAddressConfigurationWebhookRead c u w1 _).calls = _
    rw [read_calls]
    rfl
  · rw [update_error c u w w1 d err h]
    simp

theorem create_calls_head (c : Client W E) (u : Utils E) (w : W) (d : ResourceData) :
    (resourceConversationsAddressConfigurationWebhookCreate c u w d).calls.head? =
      some (.Create (createInput u d)) := by
  cases h : c.CreateWithContext w (createInput u d) with
  | mk res w1 =>
    cases res with
    | error err => rw [create_error c u w w1 d err h]; rfl
    | ok r => rw [create_ok c u w w1 d r h]; rfl

theorem update_calls_head (c : Client W E) (u : Utils E) (w : W) (d : ResourceData) :
    (resourceConversationsAddressConfigurationWebhookUpdate c u w d).calls.head? =
      some (.Update d.Id (updateInput u d)) := by
  cases h : c.UpdateWithContext w d.Id (updateInput u d) with
  | mk res w1 =>
    cases res with
    | error err => rw [update_error c u w w1 d err h]; rfl
    | ok r => rw [update_ok c u w w1 d r h]; rfl

/-- C7 (create and update send the same payload): the first SDK call of the
create function is the create call and that of the update function the update
call for the current ID, and a client that records what it receives gets these
same requests. In the two requests the `AutoCreation` blocks hold the same
`ConversationServiceSid`, `Enabled`, `WebhookFilters`, `WebhookMethod` and
`WebhookUrl`, each read by the same helper from the same attribute, and the
`FriendlyName` is the same; `Type` in the block is "webhook" for every
configuration; the create request also has `Address` and `Type`, the values of
"address" and "type"; the update request is made of the block and the friendly
name alone. -/
theorem create_update_same_payload (c : Client W E) (u : Utils E) (w : W)
    (d : ResourceData) :
    ∃ (ci : CreateAddressInput) (ca : CreateAutoCreationInput)
      (ui : UpdateAddressInput) (ua : UpdateAutoCreationInput),
      (resourceConversationsAddressConfigurationWebhookCreate c u w d).calls.head? =
        some (.Create ci) ∧
      (resourceConversationsAddressConfigurationWebhookUpdate c u w d).calls.head? =
        some (.Update d.Id ui) ∧
      (resourceConversationsAddressConfigurationWebhookCreate (recordingClient E) u [] d).world =
        [.Create ci, .Fetch "IG1"] ∧
      (resourceConversationsAddressConfigurationWebhookUpdate (recordingClient E) u [] d).world =
        [.Update d.Id ui, .Fetch d.Id] ∧
      ci.AutoCreation = some ca ∧
      ui.AutoCreation = some ua ∧
      ca.ConversationServiceSid = ua.ConversationServiceSid ∧
      ca.Enabled = ua.Enabled ∧
      ca.WebhookFilters = ua.WebhookFilters ∧
      ca.WebhookMethod = ua.WebhookMethod ∧
      ca.WebhookUrl = ua.WebhookUrl ∧
      ci.FriendlyName = ui.FriendlyName ∧
      ca.ConversationServiceSid = u.OptionalStringWithEmptyStringOnChange d "service_sid" ∧
      ca.Enabled = u.OptionalBool d "enabled" ∧
      ca.WebhookFilters = u.OptionalStringSlice d "webhook_filters" ∧
      ca.WebhookMethod = u.OptionalString d "webhook_method" ∧
      ca.WebhookUrl = u.OptionalString d "webhook_url" ∧
      ci.FriendlyName = u.OptionalStringWithEmptyStringOnChange d "friendly_name" ∧
      ca.Type_ = some "webhook" ∧
      ua.Type_ = some "webhook" ∧
      ci.Address = (d.Get "address").asString ∧
      ci.Type_ = (d.Get "type").asString ∧
      (∀ a, d.attrs "address" = some (.str a) → ci.Address = a) ∧
      (∀ t, d.attrs "type" = some (.str t) → ci.Type_ = t) ∧
      ui = { AutoCreation := some ua, FriendlyName := ui.FriendlyName } := by
  refine ⟨createInput u d,
    { ConversationServiceSid := u.OptionalStringWithEmptyStringOnChange d "service_sid",
      Enabled := u.OptionalBool d "enabled",
      Type_ := some "webhook",
      WebhookFilters := u.OptionalStringSlice d "webhook_filters",
      WebhookMethod := u.OptionalString d "webhook_method",
      WebhookUrl := u.OptionalString d "webhook_url" },
    updateInput u d,
    { ConversationServiceSid := u.OptionalStringWithEmptyStringOnChange d "service_sid",
      Enabled := u.OptionalBool d "enabled",
      Type_ := some "webhook",
      WebhookFilters := u.OptionalStringSlice d "webhook_filters",
      WebhookMethod := u.OptionalString d "webhook_method",
      WebhookUrl := u.OptionalString d "webhook_url" },
    create_calls_head c u w d, update_calls_head c u w d, rfl, rfl, rfl, rfl, rfl, rfl, rfl,
    rfl, rfl, rfl, rfl, rfl, rfl, rfl, rfl, rfl, rfl, rfl, rfl, rfl, ?_, ?_, rfl⟩
  · intro a ha
    have hl : schemaLookup "address" =
        some { Type_ := .TypeString, Required := true, ForceNew := true } := by decide
    simp [createInput, ResourceData.Get, hl, ha, Value.asString]
  · intro t ht
    have hl : schemaLookup "type" =
        some { Type_ := .TypeString, Required := true,
               ValidateFunc := some (.StringInSlice ["sms", "whatsapp"] false),
               ForceNew := true } := by decide
    simp [createInput, ResourceData.Get, hl, ht, Value.asString]

end

/-- Witness of C3: every call of the failing client returns the error `boom`;
create wraps it once and leaves the resource alone. -/
theorem error_wrap_pass_through_witness :
    (resourceConversationsAddressConfigurationWebhookCreate failingClient sampleUtils ()
      sampleData).diags =
        [{ Severity := .Error,
           Summary := "Failed to create address configuration webhook: boom" }] ∧
    (resourceConversationsAddressConfigurationWebhookRead failingClient sampleUtils ()
      sampleData).diags =
        [{ Severity := .Error,
           Summary := "Failed to read address configuration webhook: boom" }] ∧
    (resourceConversationsAddressConfigurationWebhookDelete failingClient ()
      sampleData).d.Id = "IG1" :=
  have h := error_wrap_pass_through failingClient sampleUtils () () sampleData "boom"
  ⟨(h.1 (by rfl)).1.trans (by decide), (h.2.1 (by rfl) (by decide)).1.trans (by decide),
    congrArg ResourceData.Id (h.2.2.2 (by rfl)).2.1⟩

/-- Witness of C5: on the sample service create answers `IG1` and the fetch
that follows is for `IG1`. -/
theorem create_update_refresh_witness :
    (resourceConversationsAddressConfigurationWebhookCreate sampleClient sampleUtils ()
      goneData).calls = [.Create (createInput sampleUtils goneData), .Fetch "IG1"] ∧
    (resourceConversationsAddressConfigurationWebhookCreate sampleClient sampleUtils ()
      goneData).d.attrs "sid" = some (.str "IG1") :=
  have h := (create_update_refresh sampleClient sampleUtils () goneData).1 ⟨"IG1"⟩ () (by rfl)
  ⟨h.2.2.2.2, (congrArg (fun x => x.attrs "sid") h.2.2.1).trans (by decide)⟩

/-- Witness of C7: on a configured resource whose stored `integration_type` is
"studio", the create and the update request carry the configured values, the
same in both, and `Type` "webhook"; the create request has the configured
address and type. -/
theorem create_update_same_payload_witness :
    ∃ (ci : CreateAddressInput) (ca : CreateAutoCreationInput)
      (ui : UpdateAddressInput) (ua : UpdateAutoCreationInput),
      (resourceConversationsAddressConfigurationWebhookCreate sampleClient sampleUtils ()
        configuredData).calls.head? = some (.Create ci) ∧
      (resourceConversationsAddressConfigurationWebhookUpdate sampleClient sampleUtils ()
        configuredData).calls.head? = some (.Update "IG1" ui) ∧
      ci.AutoCreation = some ca ∧
      ui.AutoCreation = some ua ∧
      ca.ConversationServiceSid = some "IS1" ∧
      ua.ConversationServiceSid = some "IS1" ∧
      ca.Enabled = some false ∧
      ua.Enabled = some false ∧
      ca.WebhookFilters = some ["onMessageAdded"] ∧
      ua.WebhookFilters = some ["onMessageAdded"] ∧
      ca.WebhookMethod = some "GET" ∧
      ua.WebhookMethod = some "GET" ∧
      ca.WebhookUrl = some "https://example.com/hook" ∧
      ua.WebhookUrl = some "https://example.com/hook" ∧
      ci.FriendlyName = some "support" ∧
      ui.FriendlyName = some "support" ∧
      ca.Type_ = some "webhook" ∧
      ua.Type_ = some "webhook" ∧
      ci.Address = "+15550100" ∧
      ci.Type_ = "sms" := by
  obtain ⟨ci, ca, ui, ua, h1, h2, _, _, hca, hua, esvc, een, ewf, ewm, ewu, efn, hsvc, hen, hwf,
    hwm, hwu, hfn, hct, hut, _, _, haddr, htype, _⟩ :=
    create_update_same_payload sampleClient sampleUtils () configuredData
  have vsvc : ca.ConversationServiceSid = some "IS1" := hsvc.trans (by decide)
  have ven : ca.Enabled = some false := hen.trans (by decide)
  have vwf : ca.WebhookFilters = some ["onMessageAdded"] := hwf.trans (by decide)
  have vwm : ca.WebhookMethod = some "GET" := hwm.trans (by decide)
  have vwu : ca.WebhookUrl = some "https://example.com/hook" := hwu.trans (by decide)
  have vfn : ci.FriendlyName = some "support" := hfn.trans (by decide)
  exact ⟨ci, ca, ui, ua, h1, h2, hca, hua, vsvc, esvc.symm.trans vsvc, ven, een.symm.trans ven,
    vwf, ewf.symm.trans vwf, vwm, ewm.symm.trans vwm, vwu, ewu.symm.trans vwu, vfn,
    efn.symm.trans vfn, hct, hut, haddr "+15550100" (by decide), htype "sms" (by decide)⟩

/-- C6 (the static schema is well formed): the schema declares 14 distinct
attributes; each is exactly one of Required (address, type, webhook_filters,
webhook_url), Optional (service_sid, friendly_name, enabled, webhook_method)
and Computed (sid, account_sid, integration_type, date_created, date_updated,
url); ForceNew is set on address and type alone; the defaults are enabled =
true and webhook_method = "POST", both on Optional attributes; each default
passes the validator of its attribute, "POST" being in the case-sensitive set
of "GET" and "POST", where "post" is not. -/
theorem schema_well_formed (x : Validation) :
    resourceSchema.length = 14 ∧
    (resourceSchema.map Prod.fst).Nodup ∧
    (∀ e ∈ resourceSchema,
      (e.2.Required = true ∧ e.2.Optional = false ∧ e.2.Computed = false) ∨
      (e.2.Required = false ∧ e.2.Optional = true ∧ e.2.Computed = false) ∨
      (e.2.Required = false ∧ e.2.Optional = false ∧ e.2.Computed = true)) ∧
    (resourceSchema.filter (fun e => e.2.Required)).map Prod.fst =
      ["address", "type", "webhook_filters", "webhook_url"] ∧
    (resourceSchema.filter (fun e => e.2.Optional)).map Prod.fst =
      ["service_sid", "friendly_name", "enabled", "webhook_method"] ∧
    (resourceSchema.filter (fun e => e.2.Computed)).map Prod.fst =
      ["sid", "account_sid", "integration_type", "date_created", "date_updated", "url"] ∧
    (resourceSchema.filter (fun e => e.2.ForceNew)).map Prod.fst = ["address", "type"] ∧
    resourceSchema.filterMap (fun e => e.2.Default.map (fun v => (e.1, v))) =
      [("enabled", .bool true), ("webhook_method", .str "POST")] ∧
    (∀ e ∈ resourceSchema, e.2.Default.isSome = true → e.2.Optional = true) ∧
    (∀ e ∈ resourceSchema, ∀ v, e.2.Default = some v →
      ∀ f, e.2.ValidateFunc = some f → f.accepts x v = true) ∧
    (schemaLookup "webhook_method").bind (fun s => s.ValidateFunc) =
      some (.StringInSlice ["GET", "POST"] false) ∧
    (Validator.StringInSlice ["GET", "POST"] false).accepts x (.str "POST") = true ∧
    (Validator.StringInSlice ["GET", "POST"] false).accepts x (.str "post") = false := by
  refine ⟨by decide, by decide, by decide, by decide, by decide, by decide, by decide,
    by decide, by decide, ?_, by decide, ?_, ?_⟩
  · simp [resourceSchema, Validator.accepts]
  · simp [Validator.accepts]
  · simp [Validator.accepts]

end AddressConfigurationWebhook
